import Mathlib

set_option maxRecDepth 100000

/-!
Verification of the request-signing subsystem and tool handler of the
jimengpic MCP server (`src/index.ts`).

The development shallowly embeds the source file's functions:

* `crypto` primitives (SHA-256, HMAC-SHA256) are implemented concretely over
  byte lists (`List Nat`, each element `< 256`), so every hash value is
  computable by the kernel and known-answer fixtures can be checked.
* `getSignatureKey`, `formatQuery`, `signV4Request` are translated
  let-for-let from the source, with the clock (`currentDate`) made an
  explicit parameter since the source reads it once at the top of
  `signV4Request`.
* The `generate-image` tool handler and the response-processing part of
  `callJimengAPI` are embedded as pure functions over an environment record
  and a parsed-response record; the branch taken is returned explicitly so
  control-flow claims (which message, whether signing was reached) are
  statable.
-/

namespace Jimeng

/-! ## Byte and 32-bit word primitives -/

/-- 2^32, the modulus for 32-bit words. -/
def w32 : Nat := 4294967296

/-- 32-bit addition with wraparound. -/
def add32 (a b : Nat) : Nat := (a + b) % w32

/-- 32-bit right rotation of a word already `< 2^32`. -/
def rotr (n x : Nat) : Nat :=
  Nat.lor (Nat.shiftRight x n) (Nat.land (Nat.shiftLeft x (32 - n)) (w32 - 1))

/-- 32-bit bitwise complement. -/
def not32 (x : Nat) : Nat := Nat.xor x (w32 - 1)

/-! ## SHA-256 (FIPS 180-4), over big-endian byte lists -/

/-- The 64 SHA-256 round constants, in decimal. -/
def sha256K : List Nat :=
  [1116352408, 1899447441, 3049323471, 3921009573, 961987163,
   1508970993, 2453635748, 2870763221, 3624381080, 310598401,
   607225278, 1426881987, 1925078388, 2162078206, 2614888103,
   3248222580, 3835390401, 4022224774, 264347078, 604807628,
   770255983, 1249150122, 1555081692, 1996064986, 2554220882,
   2821834349, 2952996808, 3210313671, 3336571891, 3584528711,
   113926993, 338241895, 666307205, 773529912, 1294757372,
   1396182291, 1695183700, 1986661051, 2177026350, 2456956037,
   2730485921, 2820302411, 3259730800, 3345764771, 3516065817,
   3600352804, 4094571909, 275423344, 430227734, 506948616,
   659060556, 883997877, 958139571, 1322822218, 1537002063,
   1747873779, 1955562222, 2024104815, 2227730452, 2361852424,
   2428436474, 2756734187, 3204031479, 3329325298]

/-- The SHA-256 initial hash value, in decimal. -/
def sha256H0 : List Nat :=
  [1779033703, 3144134277, 1013904242, 2773480762,
   1359893119, 2600822924, 528734635, 1541459225]

/-- `Ch` function of the compression rounds. -/
def sha256Ch (e f g : Nat) : Nat :=
  Nat.xor (Nat.land e f) (Nat.land (not32 e) g)

/-- `Maj` function of the compression rounds. -/
def sha256Maj (a b c : Nat) : Nat :=
  Nat.xor (Nat.xor (Nat.land a b) (Nat.land a c)) (Nat.land b c)

/-- Big sigma-0. -/
def bSig0 (x : Nat) : Nat := Nat.xor (Nat.xor (rotr 2 x) (rotr 13 x)) (rotr 22 x)

/-- Big sigma-1. -/
def bSig1 (x : Nat) : Nat := Nat.xor (Nat.xor (rotr 6 x) (rotr 11 x)) (rotr 25 x)

/-- Small sigma-0 of the message schedule. -/
def sSig0 (x : Nat) : Nat :=
  Nat.xor (Nat.xor (rotr 7 x) (rotr 18 x)) (Nat.shiftRight x 3)

/-- Small sigma-1 of the message schedule. -/
def sSig1 (x : Nat) : Nat :=
  Nat.xor (Nat.xor (rotr 17 x) (rotr 19 x)) (Nat.shiftRight x 10)

/-- One step of extending the message schedule; the accumulator holds the
words produced so far, most recent first. -/
def scheduleStep (acc : List Nat) : List Nat :=
  add32 (add32 (sSig1 (acc.getD 1 0)) (acc.getD 6 0))
        (add32 (sSig0 (acc.getD 14 0)) (acc.getD 15 0)) :: acc

/-- The 64-word message schedule of one 16-word block. -/
def messageSchedule (block : List Nat) : List Nat :=
  ((List.range 48).foldl (fun acc _ => scheduleStep acc) block.reverse).reverse

/-- One compression round; the state is the 8-word working list
`[a,b,c,d,e,f,g,h]` and `kw` the round constant paired with the schedule
word. -/
def sha256Round (st : List Nat) (kw : Nat × Nat) : List Nat :=
  match st with
  | [a, b, c, d, e, f, g, h] =>
    let t1 := add32 (add32 (add32 h (bSig1 e)) (add32 (sha256Ch e f g) kw.1)) kw.2
    let t2 := add32 (bSig0 a) (sha256Maj a b c)
    [add32 t1 t2, a, b, c, add32 d t1, e, f, g]
  | other => other

/-- Compress one 16-word block into the running 8-word hash state. -/
def sha256Compress (h : List Nat) (block : List Nat) : List Nat :=
  let ws := messageSchedule block
  let st := (sha256K.zip ws).foldl sha256Round h
  List.zipWith add32 h st

/-- Group a big-endian byte list into 32-bit words (trailing partial group
dropped; after padding the length is a multiple of 4). -/
def bytesToWords : List Nat → List Nat
  | a :: b :: c :: d :: rest => (((a * 256 + b) * 256 + c) * 256 + d) :: bytesToWords rest
  | _ => []

/-- Split a word list into 16-word blocks (after padding the length is a
multiple of 16). -/
def toBlocks : List Nat → List (List Nat)
  | w0 :: w1 :: w2 :: w3 :: w4 :: w5 :: w6 :: w7 ::
    w8 :: w9 :: w10 :: w11 :: w12 :: w13 :: w14 :: w15 :: rest =>
    [w0, w1, w2, w3, w4, w5, w6, w7, w8, w9, w10, w11, w12, w13, w14, w15]
      :: toBlocks rest
  | _ => []

/-- Big-endian bytes of `n`, `count` bytes wide. -/
def natToBytesBE (n count : Nat) : List Nat :=
  (List.range count).map (fun i => (Nat.shiftRight n (8 * (count - 1 - i))) % 256)

/-- SHA-256 padding: append `0x80`, zero bytes to 56 mod 64, then the bit
length as 8 big-endian bytes. -/
def sha256Pad (msg : List Nat) : List Nat :=
  let len := msg.length
  let zeros := (120 - (len + 1) % 64) % 64
  msg ++ [0x80] ++ List.replicate zeros 0 ++ natToBytesBE (len * 8) 8

/-- SHA-256 of a byte list, as a 32-byte list. -/
def sha256 (msg : List Nat) : List Nat :=
  let blocks := toBlocks (bytesToWords (sha256Pad msg))
  (blocks.foldl sha256Compress sha256H0).map (fun w => natToBytesBE w 4) |>.flatten

/-- Lowercase hex digit for `n < 16`. -/
def hexDigitChar (n : Nat) : Char :=
  if n < 10 then Char.ofNat (48 + n) else Char.ofNat (87 + n)

/-- Two lowercase hex characters of one byte. -/
def byteToHex (b : Nat) : String :=
  String.mk [hexDigitChar (b / 16), hexDigitChar (b % 16)]

/-- Lowercase hex string of a byte list (Node's `digest('hex')`). -/
def bytesToHex (l : List Nat) : String :=
  String.join (l.map byteToHex)

/-! ## UTF-8 encoding of strings (Node hashes strings as UTF-8) -/

/-- UTF-8 bytes of one character. -/
def charUtf8 (c : Char) : List Nat :=
  let n := c.toNat
  if n < 128 then [n]
  else if n < 2048 then
    [Nat.lor 192 (Nat.shiftRight n 6), Nat.lor 128 (Nat.land n 63)]
  else if n < 65536 then
    [Nat.lor 224 (Nat.shiftRight n 12),
     Nat.lor 128 (Nat.land (Nat.shiftRight n 6) 63),
     Nat.lor 128 (Nat.land n 63)]
  else
    [Nat.lor 240 (Nat.shiftRight n 18),
     Nat.lor 128 (Nat.land (Nat.shiftRight n 12) 63),
     Nat.lor 128 (Nat.land (Nat.shiftRight n 6) 63),
     Nat.lor 128 (Nat.land n 63)]

/-- UTF-8 bytes of a string. -/
def strBytes (s : String) : List Nat :=
  (s.data.map charUtf8).flatten

/-! ## HMAC-SHA256 (RFC 2104), block size 64 bytes -/

/-- HMAC-SHA256 with byte-list key and message. -/
def hmacSha256 (key msg : List Nat) : List Nat :=
  let k0 := if 64 < key.length then sha256 key else key
  let k := k0 ++ List.replicate (64 - k0.length) 0
  sha256 (k.map (Nat.xor 92) ++ sha256 (k.map (Nat.xor 54) ++ msg))

/-! ## Fixed deployment constants (source lines 9-12) -/

/-- `const ENDPOINT = "https://visual.volcengineapi.com"`. -/
def ENDPOINT : String := "https://visual.volcengineapi.com"

/-- `const HOST = "visual.volcengineapi.com"`. -/
def HOST : String := "visual.volcengineapi.com"

/-- `const REGION = "cn-north-1"`. -/
def REGION : String := "cn-north-1"

/-- `const SERVICE = "cv"`. -/
def SERVICE : String := "cv"

/-! ## getSignatureKey (source lines 32-38) -/

/-- The signing-key derivation: four chained HMAC-SHA256 calls. The string
arguments are hashed as their UTF-8 bytes, matching Node's
`crypto.createHmac('sha256', stringKey)`; intermediate keys are raw digests
(`Buffer`s), kept as byte lists. -/
def getSignatureKey (key dateStamp regionName serviceName : String) : List Nat :=
  let kDate := hmacSha256 (strBytes key) (strBytes dateStamp)
  let kRegion := hmacSha256 kDate (strBytes regionName)
  let kService := hmacSha256 kRegion (strBytes serviceName)
  let kSigning := hmacSha256 kService (strBytes "request")
  kSigning

/-! ## formatQuery (source lines 41-44) -/

/-- JavaScript `Array.prototype.join(sep)`. -/
def joinSep (sep : String) : List String → String
  | [] => ""
  | [x] => x
  | x :: y :: xs => x ++ sep ++ joinSep sep (y :: xs)

/-- Lexicographic less-or-equal on character lists by code unit, the order
JavaScript's default `sort()` puts strings in. -/
def leChars : List Char → List Char → Bool
  | [], _ => true
  | _ :: _, [] => false
  | a :: as, b :: bs =>
    if a.toNat < b.toNat then true
    else if b.toNat < a.toNat then false
    else leChars as bs

/-- The JS string order, as a proposition on Lean strings. -/
def jsLe (a b : String) : Prop := leChars a.data b.data = true

instance : DecidableRel jsLe := fun a b => instDecidableEqBool (leChars a.data b.data) true

/-- `formatQuery`: sort the keys ascending in the JS string order, render
each as `key=value` via record lookup, join with `&`. -/
def formatQuery (parameters : List (String × String)) : String :=
  let sortedKeys := (parameters.map Prod.fst).insertionSort jsLe
  joinSep "&" (sortedKeys.map (fun key => key ++ "=" ++ ((parameters.lookup key).getD "")))

/-! ## signV4Request (source lines 47-105)

The source reads the clock once (`const t = new Date()`) and formats it as
`currentDate`; the embedding takes that formatted timestamp as an explicit
parameter, and `datestamp` is its first 8 characters as in the source.
Each local `let` of the source becomes one definition below. -/

/-- `signedHeaders` constant of `signV4Request`. -/
def signedHeaders : String := "content-type;host;x-content-sha256;x-date"

/-- `contentType` constant of `signV4Request`. -/
def contentType : String := "application/json"

/-- `payloadHash = crypto.createHash('sha256').update(reqBody).digest('hex')`. -/
def payloadHashOf (reqBody : String) : String :=
  bytesToHex (sha256 (strBytes reqBody))

/-- `canonicalHeaders`: the four `name:value` lines joined with newlines,
plus a trailing newline. -/
def canonicalHeadersOf (reqBody currentDate : String) : String :=
  joinSep "\n"
    ["content-type:" ++ contentType,
     "host:" ++ HOST,
     "x-content-sha256:" ++ payloadHashOf reqBody,
     "x-date:" ++ currentDate] ++ "\n"

/-- `canonicalRequest`: the six components joined with newlines. -/
def canonicalRequestOf (reqQuery reqBody currentDate : String) : String :=
  joinSep "\n"
    ["POST", "/", reqQuery,
     canonicalHeadersOf reqBody currentDate,
     signedHeaders,
     payloadHashOf reqBody]

/-- `credentialScope = datestamp/REGION/service/request`. -/
def credentialScopeOf (service currentDate : String) : String :=
  (currentDate.take 8) ++ "/" ++ REGION ++ "/" ++ service ++ "/request"

/-- `stringToSign`: algorithm, timestamp, scope, hex SHA-256 of the
canonical request, joined with newlines. -/
def stringToSignOf (service reqQuery reqBody currentDate : String) : String :=
  joinSep "\n"
    ["HMAC-SHA256", currentDate,
     credentialScopeOf service currentDate,
     bytesToHex (sha256 (strBytes (canonicalRequestOf reqQuery reqBody currentDate)))]

/-- `signature = hex(HMAC-SHA256(signingKey, stringToSign))`. -/
def signatureOf (secretKey service reqQuery reqBody currentDate : String) : String :=
  bytesToHex (hmacSha256
    (getSignatureKey secretKey (currentDate.take 8) REGION service)
    (strBytes (stringToSignOf service reqQuery reqBody currentDate)))

/-- The `Authorization` header value. -/
def authorizationHeaderOf
    (accessKey secretKey service reqQuery reqBody currentDate : String) : String :=
  "HMAC-SHA256" ++ " Credential=" ++ accessKey ++ "/"
    ++ credentialScopeOf service currentDate
    ++ ", SignedHeaders=" ++ signedHeaders
    ++ ", Signature=" ++ signatureOf secretKey service reqQuery reqBody currentDate

/-- The return value of `signV4Request`: the four headers and the request
URL. -/
structure SignResult where
  xDate : String
  authorization : String
  xContentSha256 : String
  contentTypeHdr : String
  requestUrl : String
deriving DecidableEq

/-- `signV4Request`, with the formatted clock reading `currentDate` as an
explicit parameter. -/
def signV4Request
    (accessKey secretKey service reqQuery reqBody currentDate : String) : SignResult :=
  { xDate := currentDate
    authorization :=
      authorizationHeaderOf accessKey secretKey service reqQuery reqBody currentDate
    xContentSha256 := payloadHashOf reqBody
    contentTypeHdr := contentType
    requestUrl := ENDPOINT ++ "?" ++ reqQuery }

/-! ## RATIO_MAPPING and prompt building (source lines 24-29, 108-116) -/

/-- The aspect-ratio table; absent keys give `none` (JS `undefined`). -/
def RATIO_MAPPING : String → Option (Nat × Nat)
  | "4:3" => some (768, 576)
  | "3:4" => some (576, 768)
  | "16:9" => some (768, 432)
  | "9:16" => some (432, 768)
  | _ => none

/-- The four ratio strings admitted by the tool's zod input schema. -/
def schemaRatios : List String := ["4:3", "3:4", "16:9", "9:16"]

/-- `generatePrompt` (the schema guarantees `style` is a string, so the
`!= undefined` half of the source's guard is always true). -/
def generatePrompt (content style : String) : String :=
  let prompt := "生成一张图片，内容是：" ++ content
  if style.length > 0 then prompt ++ "，图片风格是：" ++ style else prompt

/-! ## callJimengAPI response processing (source lines 154-177)

The fetch/parse layers are collaborators; `ApiResponse` is the parsed JSON
body of a successful HTTP response. `metadataError = some m` models a
present `result.ResponseMetadata.Error` object with optional `Message` field
`m` (both levels present; the code checks them together). `imageUrls = none`
models `result.data` or `result.data.image_urls` absent; the code treats
absence and emptiness alike. -/

/-- A parsed upstream JSON response. -/
structure ApiResponse where
  metadataError : Option (Option String)
  imageUrls : Option (List String)

/-- `result.ResponseMetadata.Error.Message || 'Unknown error'` (JS falsy:
absent or empty string). -/
def errMessageOf : Option String → String
  | some m => if m.isEmpty then "Unknown error" else m
  | none => "Unknown error"

/-- The body of the `try` block after parsing: a present error object
throws `API error: {message}`; otherwise a non-empty URL array returns its
head, else `null`. -/
def processResponse (result : ApiResponse) : Except String (Option String) :=
  match result.metadataError with
  | some msg => Except.error ("API error: " ++ errMessageOf msg)
  | none =>
    match result.imageUrls with
    | some (url :: _) => Except.ok (some url)
    | _ => Except.ok none

/-- `callJimengAPI`'s value for a parsed response: the `catch` turns any
thrown error into `null` (after logging it to stderr, not modelled). -/
def callJimengAPIResult (result : ApiResponse) : Option String :=
  match processResponse result with
  | Except.ok v => v
  | Except.error _ => none

/-! ## The generate-image tool handler (source lines 187-246) -/

/-- The credential environment (`process.env` reads; `none` = unset). -/
structure Env where
  accessKey : Option String
  secretKey : Option String

/-- JS falsiness of a `string | undefined` value. -/
def falsy : Option String → Bool
  | none => true
  | some s => s.isEmpty

/-- Which `return` of the handler produced the result; recorded so that
control-flow claims (which branch, whether the API/signing call at source
line 224 was reached) are statable. -/
inductive HandlerBranch
  | ratioError
  | configError
  | apiFailure
  | success
deriving DecidableEq

/-- Only the two branches after source line 224 follow a `callJimengAPI`
invocation (and hence a `signV4Request`/`getSignatureKey` computation). -/
def HandlerBranch.invokesApi : HandlerBranch → Bool
  | HandlerBranch.apiFailure => true
  | HandlerBranch.success => true
  | _ => false

/-- Unsupported-ratio message (source line 204). -/
def ratioErrorMsg (ratio : String) : String :=
  "错误：不支持的图片比例 " ++ ratio ++ "。支持的比例: 4:3, 3:4, 16:9, 9:16"

/-- Missing-credentials message (source line 216). -/
def configErrorMsg : String :=
  "错误：未设置环境变量 JIMENG_ACCESS_KEY 和 JIMENG_SECRET_KEY，无法调用API。"

/-- Generic API-failure message (source line 231). -/
def apiFailMsg : String :=
  "生成图片失败，请检查网络连接和API密钥配置。"

/-- Success message (source line 241). -/
def successMsg (finalPrompt ratio : String) (width height : Nat) (imageUrl : String) : String :=
  "图片生成成功！\n\nPrompt: " ++ finalPrompt ++ "\n图片比例: " ++ ratio
    ++ " (" ++ toString width ++ "×" ++ toString height ++ ")\n图片URL: " ++ imageUrl

/-- A tool invocation's outcome: the returned text and the branch taken. -/
structure ToolResult where
  text : String
  branch : HandlerBranch
deriving DecidableEq

/-- The `generate-image` handler. `apiResult` is the awaited value of the
`callJimengAPI` collaborator, consumed only past the credential check; the
JS `if (!imageUrl)` is falsy on both `null` and the empty string. -/
def generateImageHandler (env : Env) (prompt illustration ratio : String)
    (apiResult : Option String) : ToolResult :=
  match RATIO_MAPPING ratio with
  | none => ⟨ratioErrorMsg ratio, HandlerBranch.ratioError⟩
  | some (width, height) =>
    if falsy env.accessKey || falsy env.secretKey then
      ⟨configErrorMsg, HandlerBranch.configError⟩
    else
      match apiResult with
      | some url =>
        if url.isEmpty then ⟨apiFailMsg, HandlerBranch.apiFailure⟩
        else ⟨successMsg (generatePrompt prompt illustration) ratio width height url,
              HandlerBranch.success⟩
      | none => ⟨apiFailMsg, HandlerBranch.apiFailure⟩

/-- The tool's user-visible text for a given parsed upstream response: the
handler applied to `callJimengAPI`'s value for it. -/
def toolOutputText (env : Env) (prompt illustration ratio : String)
    (resp : ApiResponse) : String :=
  (generateImageHandler env prompt illustration ratio (callJimengAPIResult resp)).text

/-! ## Order lemmas for the JS string order -/

/-- Characters with equal code points are equal. -/
theorem charEqOfToNat {a b : Char} (h : a.toNat = b.toNat) : a = b := by
  apply Char.ext
  apply UInt32.eq_of_toBitVec_eq
  apply BitVec.eq_of_toNat_eq
  simpa [Char.toNat, UInt32.toNat] using h

/-- `leChars` is total. -/
theorem leChars_total : ∀ as bs : List Char, leChars as bs = true ∨ leChars bs as = true
  | [], _ => Or.inl rfl
  | _ :: _, [] => Or.inr rfl
  | a :: as, b :: bs => by
    by_cases h1 : a.toNat < b.toNat
    · left; simp [leChars, h1]
    · by_cases h2 : b.toNat < a.toNat
      · right; simp [leChars, h2]
      · rcases leChars_total as bs with h | h
        · left; simp [leChars, h1, h2, h]
        · right; simp [leChars, h1, h2, h]

/-- `leChars` is transitive. -/
theorem leChars_trans : ∀ as bs cs : List Char,
    leChars as bs = true → leChars bs cs = true → leChars as cs = true
  | [], _, _, _, _ => rfl
  | _ :: _, [], _, h, _ => by simp [leChars] at h
  | _ :: _, _ :: _, [], _, h2 => by simp [leChars] at h2
  | a :: as, b :: bs, c :: cs, h1, h2 => by
    simp only [leChars] at h1 h2 ⊢
    by_cases hab : a.toNat < b.toNat
    · rw [if_pos hab] at h1
      by_cases hbc : b.toNat < c.toNat
      · rw [if_pos (show a.toNat < c.toNat by omega)]
      · by_cases hcb : c.toNat < b.toNat
        · rw [if_neg hbc, if_pos hcb] at h2
          exact Bool.noConfusion h2
        · rw [if_pos (show a.toNat < c.toNat by omega)]
    · by_cases hba : b.toNat < a.toNat
      · rw [if_neg hab, if_pos hba] at h1
        exact Bool.noConfusion h1
      · rw [if_neg hab, if_neg hba] at h1
        by_cases hbc : b.toNat < c.toNat
        · rw [if_pos (show a.toNat < c.toNat by omega)]
        · by_cases hcb : c.toNat < b.toNat
          · rw [if_neg hbc, if_pos hcb] at h2
            exact Bool.noConfusion h2
          · rw [if_neg hbc, if_neg hcb] at h2
            rw [if_neg (show ¬ a.toNat < c.toNat by omega),
                if_neg (show ¬ c.toNat < a.toNat by omega)]
            exact leChars_trans as bs cs h1 h2

/-- `leChars` is antisymmetric. -/
theorem leChars_antisymm : ∀ as bs : List Char,
    leChars as bs = true → leChars bs as = true → as = bs
  | [], [], _, _ => rfl
  | [], _ :: _, _, h2 => by simp [leChars] at h2
  | _ :: _, [], h1, _ => by simp [leChars] at h1
  | a :: as, b :: bs, h1, h2 => by
    simp only [leChars] at h1 h2
    by_cases hab : a.toNat < b.toNat
    · rw [if_neg (show ¬ b.toNat < a.toNat by omega), if_pos hab] at h2
      exact Bool.noConfusion h2
    · by_cases hba : b.toNat < a.toNat
      · rw [if_neg hab, if_pos hba] at h1
        exact Bool.noConfusion h1
      · rw [if_neg hab, if_neg hba] at h1
        rw [if_neg hba, if_neg hab] at h2
        rw [charEqOfToNat (show a.toNat = b.toNat by omega)]
        exact congrArg (List.cons b) (leChars_antisymm as bs h1 h2)

instance : IsTotal String jsLe := ⟨fun a b => leChars_total a.data b.data⟩

instance : IsTrans String jsLe := ⟨fun a b c => leChars_trans a.data b.data c.data⟩

instance : IsAntisymm String jsLe :=
  ⟨fun a b h1 h2 => by
    cases a with
    | mk da =>
      cases b with
      | mk db => exact congrArg String.mk (leChars_antisymm da db h1 h2)⟩

/-! ## Association-list lookup lemmas -/

/-- A key absent from the key list looks up to `none`. -/
theorem lookup_eq_none_of_not_mem {k : String} :
    ∀ {l : List (String × String)}, k ∉ l.map Prod.fst → l.lookup k = none
  | [], _ => rfl
  | (k', v') :: t, h => by
    have h' : k ∉ k' :: t.map Prod.fst := by simpa using h
    have hk' : k ≠ k' := fun he => h' (he ▸ List.mem_cons_self k' _)
    have hne : (k == k') = false := beq_eq_false_iff_ne.mpr hk'
    have ht : k ∉ t.map Prod.fst := fun hm => h' (List.mem_cons_of_mem _ hm)
    simp [List.lookup, hne, lookup_eq_none_of_not_mem ht]

/-- With unique keys, a bound pair determines the lookup result. -/
theorem lookup_eq_some_of_mem {k v : String} :
    ∀ {l : List (String × String)}, (l.map Prod.fst).Nodup →
      (k, v) ∈ l → l.lookup k = some v
  | [], _, hm => absurd hm (List.not_mem_nil _)
  | (k', v') :: t, hnd, hm => by
    have hcons : (k' :: t.map Prod.fst).Nodup := by simpa using hnd
    have hnd' := List.nodup_cons.mp hcons
    rcases List.mem_cons.mp hm with he | ht
    · obtain ⟨hk, hv⟩ := Prod.mk.injEq .. ▸ he
      simp [List.lookup, hk, hv]
    · have hk' : k ≠ k' := by
        intro he
        have hmem : k ∈ t.map Prod.fst := List.mem_map.mpr ⟨(k, v), ht, rfl⟩
        rw [he] at hmem
        exact hnd'.1 hmem
      have hne : (k == k') = false := beq_eq_false_iff_ne.mpr hk'
      simp [List.lookup, hne, lookup_eq_some_of_mem hnd'.2 ht]

/-- Lookup is invariant under permutation when keys are unique. -/
theorem lookup_perm {l₁ l₂ : List (String × String)} (hp : l₁.Perm l₂)
    (hnd : (l₁.map Prod.fst).Nodup) (k : String) : l₁.lookup k = l₂.lookup k := by
  by_cases hk : k ∈ l₁.map Prod.fst
  · obtain ⟨⟨k', v⟩, hm, hke⟩ := List.mem_map.mp hk
    rcases hke with rfl
    rw [lookup_eq_some_of_mem hnd hm,
        lookup_eq_some_of_mem ((hp.map Prod.fst).nodup_iff.mp hnd) (hp.mem_iff.mp hm)]
  · rw [lookup_eq_none_of_not_mem hk,
        lookup_eq_none_of_not_mem (fun hm => hk ((hp.map Prod.fst).mem_iff.mpr hm))]

/-! ## Claim theorems -/

/-- C1: for every secret key, date stamp, region name and service name,
`getSignatureKey` equals the four-step HMAC-SHA256 chain
`kDate = HMAC(secretKey, dateStamp)`, `kRegion = HMAC(kDate, region)`,
`kService = HMAC(kRegion, service)`, `kSigning = HMAC(kService, "request")`,
each step's output being the next step's key, in exactly that order;
moreover the chain matches an independently computed known-answer vector
for `("SK", "20240101", "cn-north-1", "cv")`. -/
theorem getSignatureKey_is_hmac_chain :
    (∀ key dateStamp regionName serviceName : String,
      getSignatureKey key dateStamp regionName serviceName =
        hmacSha256
          (hmacSha256
            (hmacSha256
              (hmacSha256 (strBytes key) (strBytes dateStamp))
              (strBytes regionName))
            (strBytes serviceName))
          (strBytes "request")) ∧
    getSignatureKey "SK" "20240101" "cn-north-1" "cv" =
      [238, 141, 188, 25, 168, 206, 49, 107, 18, 219, 66, 161, 32, 234, 85, 156,
       28, 28, 140, 46, 164, 106, 24, 185, 93, 249, 9, 92, 203, 228, 206, 93] :=
  ⟨fun _ _ _ _ => rfl, by decide⟩

/-- C2: for every body and query string (and timestamp), the canonical
request built inside `signV4Request` is the method `POST`, the path `/`,
the query string, the canonical headers block (the four headers in
signed-header order, each `name:value` newline-terminated), the
signed-header names, and the lowercase-hex SHA-256 of the body, joined
with single newlines. -/
theorem canonicalRequest_structure (reqQuery reqBody currentDate : String) :
    canonicalRequestOf reqQuery reqBody currentDate =
      "POST" ++ "\n" ++ "/" ++ "\n" ++ reqQuery ++ "\n"
        ++ ("content-type:" ++ "application/json" ++ "\n"
            ++ "host:" ++ "visual.volcengineapi.com" ++ "\n"
            ++ "x-content-sha256:" ++ payloadHashOf reqBody ++ "\n"
            ++ "x-date:" ++ currentDate ++ "\n")
        ++ "\n" ++ "content-type;host;x-content-sha256;x-date"
        ++ "\n" ++ payloadHashOf reqBody ∧
    payloadHashOf reqBody = bytesToHex (sha256 (strBytes reqBody)) := by
  constructor
  · simp only [canonicalRequestOf, canonicalHeadersOf, joinSep, contentType, HOST,
      signedHeaders, String.append_assoc]
  · rfl

/-- C3: `formatQuery` renders the key=value pairs joined with `&` with the
keys sorted ascending regardless of insertion order: it is invariant under
permutation of the (uniquely-keyed) parameter list, its output enumerates a
sorted permutation of the keys, and on
`{Version: 2022-08-31, Action: CVProcess}` it yields exactly
`Action=CVProcess&Version=2022-08-31`. -/
theorem formatQuery_sorts_keys :
    (∀ l₁ l₂ : List (String × String), l₁.Perm l₂ → (l₁.map Prod.fst).Nodup →
        formatQuery l₁ = formatQuery l₂) ∧
    (∀ l : List (String × String), ∃ sortedKeys : List String,
        sortedKeys.Perm (l.map Prod.fst) ∧ List.Sorted jsLe sortedKeys ∧
        formatQuery l =
          joinSep "&" (sortedKeys.map (fun key => key ++ "=" ++ ((l.lookup key).getD "")))) ∧
    formatQuery [("Version", "2022-08-31"), ("Action", "CVProcess")] =
      "Action=CVProcess&Version=2022-08-31" := by
  refine ⟨?_, ?_, by decide⟩
  · intro l₁ l₂ hp hnd
    unfold formatQuery
    dsimp only
    have hkeys : (l₁.map Prod.fst).insertionSort jsLe = (l₂.map Prod.fst).insertionSort jsLe :=
      List.eq_of_perm_of_sorted
        ((List.perm_insertionSort jsLe _).trans
          ((hp.map Prod.fst).trans (List.perm_insertionSort jsLe _).symm))
        (List.sorted_insertionSort jsLe _)
        (List.sorted_insertionSort jsLe _)
    rw [hkeys]
    congr 1
    apply List.map_congr_left
    intro k _
    rw [lookup_perm hp hnd k]
  · intro l
    exact ⟨(l.map Prod.fst).insertionSort jsLe, List.perm_insertionSort jsLe _,
      List.sorted_insertionSort jsLe _, rfl⟩

/-- C3 witness: permutation invariance applied to the fixed parameter set in
its two insertion orders. -/
theorem formatQuery_sorts_keys_witness :
    formatQuery [("Version", "2022-08-31"), ("Action", "CVProcess")] =
      formatQuery [("Action", "CVProcess"), ("Version", "2022-08-31")] :=
  formatQuery_sorts_keys.1 _ _ (List.Perm.swap _ _ _) (by decide)

/-- C4: two invocations of `signV4Request` with identical access key,
secret key, service, query string and body, at the same clock timestamp,
produce byte-identical signatures and results (headers, in particular the
`Authorization` header, and URL): the signing computation is a
deterministic function of those inputs plus the timestamp. -/
theorem signV4Request_deterministic
    (accessKey secretKey service reqQuery reqBody d₁ d₂ : String) (h : d₁ = d₂) :
    signatureOf secretKey service reqQuery reqBody d₁ =
      signatureOf secretKey service reqQuery reqBody d₂ ∧
    signV4Request accessKey secretKey service reqQuery reqBody d₁ =
      signV4Request accessKey secretKey service reqQuery reqBody d₂ := by
  subst h
  exact ⟨rfl, rfl⟩

/-- C4 witness: determinism applied at a concrete input and timestamp. -/
theorem signV4Request_deterministic_witness :
    signV4Request "AK" "SK" "cv" "Action=CVProcess&Version=2022-08-31"
        "body" "20240101T000000Z" =
      signV4Request "AK" "SK" "cv" "Action=CVProcess&Version=2022-08-31"
        "body" "20240101T000000Z" :=
  (signV4Request_deterministic "AK" "SK" "cv" "Action=CVProcess&Version=2022-08-31"
    "body" "20240101T000000Z" "20240101T000000Z" rfl).2

/-- C5: with a schema-admitted ratio, a tool invocation with the access key
or secret key unconfigured returns the configuration-error message from the
credential-check branch — before the `callJimengAPI` call, so before any
HMAC computation or network request — and that message is distinct from the
generic API-failure message. -/
theorem missing_credentials_short_circuit
    (env : Env) (prompt illustration ratio : String) (apiResult : Option String)
    (hr : ratio ∈ schemaRatios)
    (hmiss : env.accessKey = none ∨ env.secretKey = none) :
    (generateImageHandler env prompt illustration ratio apiResult).text = configErrorMsg ∧
    (generateImageHandler env prompt illustration ratio apiResult).branch =
      HandlerBranch.configError ∧
    HandlerBranch.configError.invokesApi = false ∧
    configErrorMsg ≠ apiFailMsg := by
  have hfal : (falsy env.accessKey || falsy env.secretKey) = true := by
    rcases hmiss with h | h <;> simp [falsy, h]
  refine ⟨?_, ?_, rfl, by decide⟩ <;>
    fin_cases hr <;>
      simp [generateImageHandler, show RATIO_MAPPING "4:3" = some (768, 576) from rfl,
        show RATIO_MAPPING "3:4" = some (576, 768) from rfl,
        show RATIO_MAPPING "16:9" = some (768, 432) from rfl,
        show RATIO_MAPPING "9:16" = some (432, 768) from rfl, hfal]

/-- C5 witness: the short circuit at a concrete invocation with the access
key unset. -/
theorem missing_credentials_short_circuit_witness :
    ("4:3" ∈ schemaRatios) ∧
    (generateImageHandler ⟨none, some "SK"⟩ "p" "i" "4:3" none).text = configErrorMsg ∧
    configErrorMsg ≠ apiFailMsg :=
  ⟨by decide,
   (missing_credentials_short_circuit ⟨none, some "SK"⟩ "p" "i" "4:3" none
      (by decide) (Or.inl rfl)).1,
   (missing_credentials_short_circuit ⟨none, some "SK"⟩ "p" "i" "4:3" none
      (by decide) (Or.inl rfl)).2.2.2⟩

/-- C6: signing the empty-string body computes, places in the canonical
request, and returns in the `X-Content-Sha256` header exactly the SHA-256
of the empty string, rather than omitting the hash. -/
theorem empty_body_payload_hash (accessKey secretKey service reqQuery currentDate : String) :
    payloadHashOf "" =
      "e3b0c44298fc1c149afbf4c8996fb92427ae41e4649b934ca495991b7852b855" ∧
    (signV4Request accessKey secretKey service reqQuery "" currentDate).xContentSha256 =
      "e3b0c44298fc1c149afbf4c8996fb92427ae41e4649b934ca495991b7852b855" ∧
    canonicalRequestOf reqQuery "" currentDate =
      "POST" ++ "\n" ++ "/" ++ "\n" ++ reqQuery ++ "\n"
        ++ canonicalHeadersOf "" currentDate ++ "\n"
        ++ signedHeaders ++ "\n"
        ++ "e3b0c44298fc1c149afbf4c8996fb92427ae41e4649b934ca495991b7852b855" := by
  have h : payloadHashOf "" =
      "e3b0c44298fc1c149afbf4c8996fb92427ae41e4649b934ca495991b7852b855" := by decide
  refine ⟨h, h, ?_⟩
  simp only [canonicalRequestOf, joinSep, String.append_assoc, h]

/-- C7: the credential scope is
`dateStamp/REGION/service/request` (with the fixed region constant and the
date stamp being the first 8 characters of the timestamp), and the
`Authorization` header is exactly
`HMAC-SHA256 Credential={accessKey}/{credentialScope},
SignedHeaders=content-type;host;x-content-sha256;x-date,
Signature={signature}`. -/
theorem credentialScope_and_authorization
    (accessKey secretKey service reqQuery reqBody currentDate : String) :
    credentialScopeOf service currentDate =
      currentDate.take 8 ++ "/" ++ REGION ++ "/" ++ service ++ "/request" ∧
    (signV4Request accessKey secretKey service reqQuery reqBody currentDate).authorization =
      "HMAC-SHA256 Credential=" ++ accessKey ++ "/"
        ++ credentialScopeOf service currentDate
        ++ ", SignedHeaders=content-type;host;x-content-sha256;x-date, Signature="
        ++ signatureOf secretKey service reqQuery reqBody currentDate := by
  constructor
  · rfl
  · simp only [signV4Request, authorizationHeaderOf, signedHeaders, String.append_assoc]
    have h1 : ("HMAC-SHA256" ++ " Credential=" : String) = "HMAC-SHA256 Credential=" := by
      decide
    have h2 : (", SignedHeaders=" ++ "content-type;host;x-content-sha256;x-date" : String) =
        ", SignedHeaders=content-type;host;x-content-sha256;x-date" := by decide
    have h3 : (", SignedHeaders=content-type;host;x-content-sha256;x-date"
          ++ ", Signature=" : String) =
        ", SignedHeaders=content-type;host;x-content-sha256;x-date, Signature=" := by decide
    rw [← String.append_assoc "HMAC-SHA256" " Credential=", h1,
        ← String.append_assoc ", SignedHeaders="
          "content-type;host;x-content-sha256;x-date", h2,
        ← String.append_assoc ", SignedHeaders=content-type;host;x-content-sha256;x-date"
          ", Signature=", h3]

/-- C8 counterexample: for the concrete parsed response with no error
object and an empty image-URL array, the tool's output is the generic
API-failure text and coincides exactly with the tool's output for a
response carrying an error object — so the no-result outcome is NOT
distinguishable at the tool's output from an error outcome, and it IS
reported with the failure message. -/
theorem emptyResult_indistinguishable_counterexample :
    processResponse ⟨none, some []⟩ = Except.ok none ∧
    toolOutputText ⟨some "AK", some "SK"⟩ "p" "i" "4:3" ⟨none, some []⟩ = apiFailMsg ∧
    toolOutputText ⟨some "AK", some "SK"⟩ "p" "i" "4:3" ⟨none, some []⟩ =
      toolOutputText ⟨some "AK", some "SK"⟩ "p" "i" "4:3" ⟨some (some "boom"), none⟩ :=
  ⟨rfl, by decide, by decide⟩

/-- C8 (amended): a successfully parsed response with no error object and
no non-empty image-URL array is non-exceptional inside `callJimengAPI` —
it yields `Except.ok none` (the code's `return null`), not a thrown error —
but `callJimengAPI` hands the same `null` to the handler that error
outcomes produce, so the tool's output is the generic API-failure message,
not a distinct no-result text. -/
theorem emptyResult_amended (r : ApiResponse)
    (herr : r.metadataError = none)
    (hurl : ∀ url urls, r.imageUrls ≠ some (url :: urls)) :
    processResponse r = Except.ok none ∧
    callJimengAPIResult r = none ∧
    (∀ env prompt illustration ratio, ratio ∈ schemaRatios →
      falsy env.accessKey = false → falsy env.secretKey = false →
      toolOutputText env prompt illustration ratio r = apiFailMsg) := by
  have hp : processResponse r = Except.ok none := by
    unfold processResponse
    rw [herr]
    match hu : r.imageUrls with
    | none => rfl
    | some [] => rfl
    | some (url :: urls) => exact absurd hu (hurl url urls)
  refine ⟨hp, ?_, ?_⟩
  · unfold callJimengAPIResult
    rw [hp]
  · intro env prompt illustration ratio hr ha hs
    unfold toolOutputText callJimengAPIResult
    rw [hp]
    have hfal : (falsy env.accessKey || falsy env.secretKey) = false := by
      rw [ha, hs]; rfl
    fin_cases hr <;>
      simp [generateImageHandler, show RATIO_MAPPING "4:3" = some (768, 576) from rfl,
        show RATIO_MAPPING "3:4" = some (576, 768) from rfl,
        show RATIO_MAPPING "16:9" = some (768, 432) from rfl,
        show RATIO_MAPPING "9:16" = some (432, 768) from rfl, hfal]

/-- C8 witness: the amended claim applied to the concrete empty-result
response with credentials configured. -/
theorem emptyResult_amended_witness :
    callJimengAPIResult ⟨none, some []⟩ = none ∧
    toolOutputText ⟨some "AK", some "SK"⟩ "p" "i" "4:3" ⟨none, some []⟩ = apiFailMsg := by
  obtain ⟨h1, h2, h3⟩ := emptyResult_amended ⟨none, some []⟩ rfl
    (fun url urls h => by simp at h)
  exact ⟨h2, h3 ⟨some "AK", some "SK"⟩ "p" "i" "4:3" (by decide) rfl rfl⟩

/-- C9 counterexample: for the concrete successful-status response whose
metadata carries the error message `quota exceeded`, the tool invocation's
user-visible failure text is the generic API-failure message, not the
extracted message (`API error: quota exceeded`), and it does not depend on
the extracted message at all. -/
theorem apiError_not_surfaced_counterexample :
    toolOutputText ⟨some "AK", some "SK"⟩ "p" "i" "4:3"
        ⟨some (some "quota exceeded"), none⟩ = apiFailMsg ∧
    toolOutputText ⟨some "AK", some "SK"⟩ "p" "i" "4:3"
        ⟨some (some "quota exceeded"), none⟩ ≠ "API error: quota exceeded" ∧
    toolOutputText ⟨some "AK", some "SK"⟩ "p" "i" "4:3"
        ⟨some (some "quota exceeded"), none⟩ =
      toolOutputText ⟨some "AK", some "SK"⟩ "p" "i" "4:3"
        ⟨some (some "another message"), none⟩ :=
  ⟨by decide, by decide, by decide⟩

/-- C9 (amended): for a successful-status response with an error object
carrying a non-empty message `m`, `callJimengAPI` throws
`API error: {m}` internally, but its own `catch` converts the throw to
`null` (after logging to stderr), so the tool invocation's user-visible
failure text is the generic API-failure message, not the extracted one. -/
theorem apiError_amended (r : ApiResponse) (m : String)
    (herr : r.metadataError = some (some m)) (hm : m.isEmpty = false) :
    processResponse r = Except.error ("API error: " ++ m) ∧
    callJimengAPIResult r = none ∧
    (∀ env prompt illustration ratio, ratio ∈ schemaRatios →
      falsy env.accessKey = false → falsy env.secretKey = false →
      toolOutputText env prompt illustration ratio r = apiFailMsg) := by
  have hp : processResponse r = Except.error ("API error: " ++ m) := by
    unfold processResponse
    rw [herr]
    simp [errMessageOf, hm]
  refine ⟨hp, ?_, ?_⟩
  · unfold callJimengAPIResult
    rw [hp]
  · intro env prompt illustration ratio hr ha hs
    unfold toolOutputText callJimengAPIResult
    rw [hp]
    have hfal : (falsy env.accessKey || falsy env.secretKey) = false := by
      rw [ha, hs]; rfl
    fin_cases hr <;>
      simp [generateImageHandler, show RATIO_MAPPING "4:3" = some (768, 576) from rfl,
        show RATIO_MAPPING "3:4" = some (576, 768) from rfl,
        show RATIO_MAPPING "16:9" = some (768, 432) from rfl,
        show RATIO_MAPPING "9:16" = some (432, 768) from rfl, hfal]

/-- C9 witness: the amended claim applied to the concrete error response
with message `quota exceeded` and credentials configured. -/
theorem apiError_amended_witness :
    processResponse ⟨some (some "quota exceeded"), none⟩ =
      Except.error ("API error: " ++ "quota exceeded") ∧
    toolOutputText ⟨some "AK", some "SK"⟩ "p" "i" "4:3"
        ⟨some (some "quota exceeded"), none⟩ = apiFailMsg := by
  obtain ⟨h1, h2, h3⟩ := apiError_amended ⟨some (some "quota exceeded"), none⟩
    "quota exceeded" rfl rfl
  exact ⟨h1, h3 ⟨some "AK", some "SK"⟩ "p" "i" "4:3" (by decide) rfl rfl⟩

/-- Helper for C10: once the ratio lookup succeeds, the handler cannot take
the unsupported-ratio branch. -/
theorem branch_ne_ratioError (env : Env) (prompt illustration ratio : String)
    (apiResult : Option String) (sz : Nat × Nat)
    (h : RATIO_MAPPING ratio = some sz) :
    (generateImageHandler env prompt illustration ratio apiResult).branch ≠
      HandlerBranch.ratioError := by
  obtain ⟨width, height⟩ := sz
  unfold generateImageHandler
  rw [h]
  dsimp only
  split
  · intro hc
    exact HandlerBranch.noConfusion hc
  · cases apiResult with
    | none => intro hc; exact HandlerBranch.noConfusion hc
    | some url =>
      by_cases hu : url.isEmpty <;> simp [hu]

/-- C10: every ratio admitted by the tool's input schema has an entry in
the ratio-to-pixel-size mapping, so under that precondition the handler's
unsupported-ratio branch is unreachable. -/
theorem schema_ratio_lookup_total (ratio : String) (hr : ratio ∈ schemaRatios) :
    (∃ sz : Nat × Nat, RATIO_MAPPING ratio = some sz) ∧
    (∀ env prompt illustration apiResult,
      (generateImageHandler env prompt illustration ratio apiResult).branch ≠
        HandlerBranch.ratioError) := by
  have hsz : ∃ sz : Nat × Nat, RATIO_MAPPING ratio = some sz := by
    fin_cases hr
    · exact ⟨(768, 576), rfl⟩
    · exact ⟨(576, 768), rfl⟩
    · exact ⟨(768, 432), rfl⟩
    · exact ⟨(432, 768), rfl⟩
  obtain ⟨sz, hmap⟩ := hsz
  exact ⟨⟨sz, hmap⟩, fun env prompt illustration apiResult =>
    branch_ne_ratioError env prompt illustration ratio apiResult sz hmap⟩

/-- C10 witness: the lookup succeeds at the concrete schema ratio `16:9`,
and the handler does not take the unsupported-ratio branch there. -/
theorem schema_ratio_lookup_total_witness :
    (∃ sz : Nat × Nat, RATIO_MAPPING "16:9" = some sz) ∧
    (generateImageHandler ⟨some "AK", some "SK"⟩ "p" "i" "16:9" none).branch ≠
      HandlerBranch.ratioError :=
  ⟨(schema_ratio_lookup_total "16:9" (by decide)).1,
   (schema_ratio_lookup_total "16:9" (by decide)).2 ⟨some "AK", some "SK"⟩ "p" "i" none⟩

/-! ## Validation of the crypto embedding against independent vectors -/

/-- Known-answer check: SHA-256 of the empty input (FIPS 180-4 vector). -/
theorem sha256_empty_vector :
    bytesToHex (sha256 []) =
      "e3b0c44298fc1c149afbf4c8996fb92427ae41e4649b934ca495991b7852b855" := by decide

/-- Known-answer check: SHA-256 of `abc` (FIPS 180-4 vector). -/
theorem sha256_abc_vector :
    bytesToHex (sha256 [97, 98, 99]) =
      "ba7816bf8f01cfea414140de5dae2223b00361a396177a9cb410ff61f20015ad" := by decide

/-- Known-answer check: HMAC-SHA256 with key `key` and message `msg`,
against an independently computed reference value. -/
theorem hmacSha256_vector :
    bytesToHex (hmacSha256 (strBytes "key") (strBytes "msg")) =
      "2d93cbc1be167bcb1637a4a23cbff01a7878f0c50ee833954ea5221bb1b8c628" := by decide

end Jimeng
